import Mathlib

/-!
Shallow embedding of the drudge server runtime (github.com/ninnemana/drudge).

The definitions below are translated from the Go sources under src/:
  - stream.go   : ForwardResponseStream, handleForwardResponseStreamError, streamChunk
  - handler.go  : allowCORS, preflightHandler (the h2c revision that also routes)
  - server.go   : grpcWrapper, Run (startup sequencing and teardown goroutines)
  - telemetry/* and the RegistryHandler revision: metric registration

External collaborators (gRPC status codes, the grpc-gateway HTTP status mapping,
net/http status text) are embedded as the total functions the core consumes.
Machine integers stay in Nat: every code involved is below 2^31, so no overflow
arithmetic is needed.
-/

namespace Drudge

/-! ## gRPC status codes (google.golang.org/grpc/codes)

OK=0, Canceled=1, Unknown=2, InvalidArgument=3, DeadlineExceeded=4, NotFound=5,
AlreadyExists=6, PermissionDenied=7, ResourceExhausted=8, FailedPrecondition=9,
Aborted=10, OutOfRange=11, Unimplemented=12, Internal=13, Unavailable=14,
DataLoss=15, Unauthenticated=16. -/

def codeOK : Nat := 0

def codeUnknown : Nat := 2

def codeNotFound : Nat := 5

/-- Model of grpc-gateway runtime.HTTPStatusFromCode (the fork pinned in go.mod,
grpc-gateway v1.11 line): the fixed total map from gRPC status codes to HTTP
status codes; every unlisted code falls through to 500. -/
def HTTPStatusFromCode (code : Nat) : Nat :=
  if code = 0 then 200
  else if code = 1 then 408
  else if code = 2 then 500
  else if code = 3 then 400
  else if code = 4 then 504
  else if code = 5 then 404
  else if code = 6 then 409
  else if code = 7 then 403
  else if code = 8 then 429
  else if code = 9 then 412
  else if code = 10 then 409
  else if code = 11 then 400
  else if code = 12 then 501
  else if code = 13 then 500
  else if code = 14 then 503
  else if code = 15 then 500
  else if code = 16 then 401
  else 500

/-- Model of net/http StatusText for the HTTP codes in the range of
HTTPStatusFromCode; Go returns the empty string for unknown codes. -/
def statusText (code : Nat) : String :=
  if code = 200 then "OK"
  else if code = 400 then "Bad Request"
  else if code = 401 then "Unauthorized"
  else if code = 403 then "Forbidden"
  else if code = 404 then "Not Found"
  else if code = 408 then "Request Timeout"
  else if code = 409 then "Conflict"
  else if code = 412 then "Precondition Failed"
  else if code = 429 then "Too Many Requests"
  else if code = 500 then "Internal Server Error"
  else if code = 501 then "Not Implemented"
  else if code = 503 then "Service Unavailable"
  else if code = 504 then "Gateway Timeout"
  else ""

/-- A protobuf Any detail attached to an RPC status (types.Any in stream.go):
a type URL plus raw bytes. -/
structure AnyDetail where
  typeUrl : String
  value : List Nat
deriving DecidableEq, Repr

/-- An RPC status value (google.golang.org/grpc/status): code, message and
structured details. -/
structure RpcStatus where
  code : Nat
  message : String
  details : List AnyDetail
deriving DecidableEq, Repr

/-- A Go error as seen by the forwarder: either a status-bearing RPC error
(status.FromError succeeds) or a plain error carrying only its message
(status.FromError fails). -/
inductive GoError where
  | withStatus (s : RpcStatus)
  | plain (msg : String)
deriving DecidableEq, Repr

/-- status.FromError: the status and the ok flag. On failure the caller in
handleForwardResponseStreamError substitutes status.New(codes.Unknown, err.Error()). -/
def statusFromError : GoError → RpcStatus × Bool
  | .withStatus s => (s, true)
  | .plain msg => ({ code := codeUnknown, message := msg, details := [] }, false)

/-- The gRPC code the error resolves to: the status code when one is attached,
Unknown otherwise (mirrors the s.Code() use in stream.go). -/
def errCode : GoError → Nat
  | .withStatus s => s.code
  | .plain _ => codeUnknown

/-- The message the error resolves to (s.Message() or err.Error()). -/
def errMessageOf : GoError → String
  | .withStatus s => s.message
  | .plain m => m

/-- The structured details the error carries (empty when no status is attached,
mirroring the nil grpcDetails in streamChunk). -/
def errDetailsOf : GoError → List AnyDetail
  | .withStatus s => s.details
  | .plain _ => []

/-- The StreamError proto written inside an error chunk (stream.go):
grpc_code, http_code, message, http_status text and details. -/
structure StreamError where
  grpcCode : Nat
  httpCode : Nat
  message : String
  httpStatus : String
  details : List AnyDetail
deriving DecidableEq, Repr

/-- The error branch of streamChunk (stream.go lines 138-169): start from
Unknown plus err.Error, overwrite from the attached status when present, map
the gRPC code through HTTPStatusFromCode, and attach the HTTP status text and
the copied details. -/
def errorEnvelope (err : GoError) : StreamError :=
  let unknownTriple : Nat × String × List AnyDetail :=
    (codeUnknown, errMessageOf err, [])
  let triple :=
    match statusFromError err with
    | (s, true) =>
        (s.code, s.message, s.details.map fun (d : AnyDetail) => AnyDetail.mk d.typeUrl d.value)
    | (_, false) => unknownTriple
  let httpCode := HTTPStatusFromCode triple.1
  { grpcCode := triple.1
    httpCode := httpCode
    message := triple.2.1
    httpStatus := statusText httpCode
    details := triple.2.2 }

/-- A stream chunk: the tagged union streamChunk returns as a one-key map,
either map with key result holding a message or map with key error holding a
StreamError. -/
inductive StreamChunkVal (Msg : Type) where
  | result (m : Msg)
  | error (e : StreamError)
deriving DecidableEq, Repr

/-- streamChunk (stream.go lines 137-177). With an error it returns the error
chunk; with a message and no error the result chunk; with neither it recurses
on the plain error with message empty response (inlined here, since that call
hits the error branch immediately). -/
def streamChunk {Msg : Type} : Option Msg → Option GoError → StreamChunkVal Msg
  | _, some err => .error (errorEnvelope err)
  | some result, none => .result result
  | none, none => .error (errorEnvelope (.plain "empty response"))

/-! ## Streaming response forwarder (stream.go)

The forwarder's interaction with the http.ResponseWriter and the marshaler is
recorded as a trace of events. A write event carries the Go value that was
passed to marshaler.Marshal (whose Go domain is interface\x7b\x7d): the raw
accumulated message slice, a single chunk map, or a slice of chunk maps. -/

/-- An argument handed to marshaler.Marshal by the forwarder or (for the
chunkList shape) by the specification's claimed wrapped-sequence output. -/
inductive MarshalArg (Msg : Type) where
  | msgList (l : List Msg)
  | chunkMap (c : StreamChunkVal Msg)
  | chunkList (l : List (StreamChunkVal Msg))
deriving DecidableEq, Repr

/-- One observable effect of ForwardResponseStream on the response writer. -/
inductive HTTPEvent (Msg : Type) where
  | httpError (msg : String) (code : Nat)
  | setHeader (key val : String)
  | muxHTTPError (err : GoError)
  | writeHeader (code : Nat)
  | write (arg : MarshalArg Msg)
  | flush
deriving DecidableEq, Repr

/-- Result of a ForwardResponseStream call: the event trace and how many times
recv was invoked on the RPC stream. -/
structure ForwardResult (Msg : Type) where
  events : List (HTTPEvent Msg)
  recvCount : Nat
deriving DecidableEq, Repr

/-- Everything a ForwardResponseStream call depends on: whether the writer
supports flushing, whether ServerMetadata is in the context, the metadata
headers, the marshaler content type, which marshal calls fail (none on
success), the per-message forward-response options, and the stream itself:
the messages recv yields, then either clean EOF (none) or a terminal error. -/
structure ForwardInput (Msg : Type) where
  flusherOk : Bool
  mdOk : Bool
  md : List (String × String)
  contentType : String
  marshalErr : MarshalArg Msg → Option GoError
  writeOk : Bool
  opts : List (Option Msg → Option GoError)
  msgs : List Msg
  term : Option GoError

/-- handleForwardResponseOptions (stream.go lines 97-115): apply each option in
order, stopping at the first error; no options means no error. -/
def handleForwardResponseOptions {Msg : Type}
    (opts : List (Option Msg → Option GoError)) (resp : Option Msg) : Option GoError :=
  opts.findSome? fun opt => opt resp

/-- handleForwardResponseStreamError (stream.go lines 117-135): marshal the
error chunk (bailing out with no writes if that fails), then write the mapped
HTTP status header followed by the chunk. No flush happens here. -/
def handleForwardResponseStreamError {Msg : Type}
    (marshalErr : MarshalArg Msg → Option GoError) (err : GoError) : List (HTTPEvent Msg) :=
  match marshalErr (.chunkMap (streamChunk none (some err))) with
  | some _ => []
  | none =>
      [.writeHeader (HTTPStatusFromCode (errCode err)),
       .write (.chunkMap (streamChunk none (some err)))]

/-- The recv loop of ForwardResponseStream (stream.go lines 54-71): returns
(some chunks) with the accumulated raw messages when the loop ends at EOF, or
none together with the error-path events when it returns early; the third
component counts recv calls. -/
def forwardLoop {Msg : Type} (marshalErr : MarshalArg Msg → Option GoError)
    (opts : List (Option Msg → Option GoError)) :
    List Msg → Option GoError → Option (List Msg) × List (HTTPEvent Msg) × Nat
  | [], none => (some [], [], 1)
  | [], some err => (none, handleForwardResponseStreamError marshalErr err, 1)
  | m :: rest, term =>
      match handleForwardResponseOptions opts (some m) with
      | some err => (none, handleForwardResponseStreamError marshalErr err, 1)
      | none =>
          match forwardLoop marshalErr opts rest term with
          | (res, evs, n) => (res.map fun l => m :: l, evs, n + 1)

/-- The metadata headers plus the Content-Type header the forwarder sets before
reading the stream (stream.go lines 43-45). -/
def headerEvents {Msg : Type} (md : List (String × String)) (ct : String) :
    List (HTTPEvent Msg) :=
  (md.map fun kv => HTTPEvent.setHeader kv.1 kv.2) ++ [HTTPEvent.setHeader "Content-Type" ct]

/-- ForwardResponseStream (stream.go lines 19-87). Flusher and metadata checks
first (500 via http.Error, recv never called), then headers, the pre-loop
options call (runtime.HTTPError on failure), the recv loop, and finally the
single Marshal plus Write plus Flush of the accumulated raw message slice. -/
def ForwardResponseStream {Msg : Type} (inp : ForwardInput Msg) : ForwardResult Msg :=
  if !inp.flusherOk then
    { events := [.httpError "unexpected type of web server" 500], recvCount := 0 }
  else if !inp.mdOk then
    { events := [.httpError "unexpected error" 500], recvCount := 0 }
  else
    let hdrs : List (HTTPEvent Msg) := headerEvents inp.md inp.contentType
    match handleForwardResponseOptions inp.opts none with
    | some err => { events := hdrs ++ [.muxHTTPError err], recvCount := 0 }
    | none =>
        match forwardLoop inp.marshalErr inp.opts inp.msgs inp.term with
        | (none, evs, n) => { events := hdrs ++ evs, recvCount := n }
        | (some chunks, _, n) =>
            match inp.marshalErr (.msgList chunks) with
            | some merr =>
                { events := hdrs ++ handleForwardResponseStreamError inp.marshalErr merr
                  recvCount := n }
            | none =>
                if inp.writeOk then
                  { events := hdrs ++ [.write (.msgList chunks), .flush], recvCount := n }
                else
                  { events := hdrs ++ [.write (.msgList chunks)], recvCount := n }

/-- True when the event writes an error chunk in any marshal shape. -/
def isErrorChunkWrite {Msg : Type} : HTTPEvent Msg → Bool
  | .write (.chunkMap (.error _)) => true
  | .write (.chunkList l) =>
      l.any fun c => match c with | .error _ => true | .result _ => false
  | _ => false

/-- True when the event writes a result chunk wrapping the given message
(the StreamChunk wrapped form, in either marshal shape). -/
def containsResultChunk {Msg : Type} [BEq Msg] (m : Msg) : HTTPEvent Msg → Bool
  | .write (.chunkMap (.result x)) => x == m
  | .write (.chunkList l) =>
      l.any fun c => match c with | .result x => x == m | .error _ => false
  | _ => false

/-! ## Protocol router and CORS preflight (server.go grpcWrapper, handler.go) -/

/-- Model of Go strings.Contains: sub occurs somewhere inside s. -/
def containsSubstr (s sub : String) : Bool :=
  (List.range (s.length + 1)).any fun i => sub.data.isPrefixOf (s.data.drop i)

/-- The request fields the router reads: protocol major version and the
Content-Type, Origin, Access-Control-Request-Method headers plus the method. -/
structure Request where
  protoMajor : Nat
  contentType : String
  origin : String
  acrm : String
  method : String
deriving DecidableEq, Repr

/-- The RPC-vs-REST routing condition shared by grpcWrapper (server.go line
210) and the h2c allowCORS (handler.go line 27): HTTP/2 and a Content-Type
containing the gRPC media type family. -/
def isGRPCRequest (r : Request) : Bool :=
  r.protoMajor == 2 && containsSubstr r.contentType "application/grpc"

/-- Which handler a routing decision hands the request to. -/
inductive Route where
  | rpc
  | rest
deriving DecidableEq, Repr

/-- grpcWrapper (server.go lines 208-216): gRPC server iff the routing
condition holds, the wrapped REST handler otherwise. -/
def grpcWrapper (r : Request) : Route :=
  if isGRPCRequest r then .rpc else .rest

/-- One observable effect of the router: a header set on the response or the
delegation to a wrapped handler. The router itself never writes a body (there
is no Write call in allowCORS or preflightHandler). -/
inductive RouterEvent where
  | setHeader (key val : String)
  | delegateRPC
  | delegateRest
deriving DecidableEq, Repr

/-- preflightHandler (handler.go lines 46-53): sets the allowed headers and
allowed methods, joined with a comma, and returns without writing a body. -/
def preflightHandler : List RouterEvent :=
  [.setHeader "Access-Control-Allow-Headers"
      (String.intercalate "," ["Content-Type", "Accept"]),
   .setHeader "Access-Control-Allow-Methods"
      (String.intercalate "," ["GET", "HEAD", "POST", "PUT", "DELETE"])]

/-- allowCORS in its h2c revision (handler.go lines 25-41): RPC traffic goes to
the gRPC server; otherwise a non-empty Origin gets echoed as the allowed
origin, an OPTIONS request that also carries Access-Control-Request-Method
short-circuits to the preflight responder, and everything else reaches the
REST handler. -/
def allowCORS (r : Request) : List RouterEvent :=
  if isGRPCRequest r then
    [.delegateRPC]
  else
    if r.origin == "" then
      [.delegateRest]
    else
      RouterEvent.setHeader "Access-Control-Allow-Origin" r.origin ::
        (if r.method == "OPTIONS" && !(r.acrm == "") then preflightHandler
         else [.delegateRest])

/-! ## Metric registry (RegistryHandler revision in src/unnamed/part_000 and
telemetry/telemetry.go) -/

/-- An OpenCensus measure as stored in the registry map (stats.Int64 or
stats.Float64 with its name, description and unit). -/
structure MeasureVal where
  name : String
  description : String
  unit : String
  isInt64 : Bool
deriving DecidableEq, Repr

/-- RegistryHandler: the name-to-instrument map, modelled as an assoc list in
insertion order (the nil Go map is the empty list). -/
structure RegistryHandler where
  metrics : List (String × MeasureVal)
deriving DecidableEq, Repr

/-- RegistryHandler.exists: is the name already registered. -/
def RegistryHandler.existsName (r : RegistryHandler) (key : String) : Bool :=
  r.metrics.any fun kv => kv.1 == key

/-- RegistryHandler.put: map assignment, overwriting an existing key or
inserting a new one (the nil-map initialization is the empty list). -/
def RegistryHandler.put (r : RegistryHandler) (key : String) (m : MeasureVal) :
    RegistryHandler :=
  if r.existsName key then
    ⟨r.metrics.map fun kv => if kv.1 == key then (key, m) else kv⟩
  else
    ⟨r.metrics ++ [(key, m)]⟩

/-- The outcome of a registration call: log.Fatal terminates the process, so a
duplicate name yields no successor state at all. -/
inductive FatalOr (α : Type) where
  | fatal (msg : String)
  | ok (val : α)
deriving DecidableEq, Repr

/-- RegistryHandler.Int64Measure (src/unnamed/part_000 lines 50-70): fatal on a
duplicate name, otherwise create the measure, register the view (whose error
the code discards), store it and return it. Tags and aggregation only feed the
external view registration. -/
def RegistryHandler.Int64Measure (r : RegistryHandler)
    (name description unit : String) (_tags : List String) :
    FatalOr (RegistryHandler × MeasureVal) :=
  if r.existsName name then
    .fatal "the provided metric name is already registered"
  else
    let s : MeasureVal := ⟨name, description, unit, true⟩
    .ok (r.put name s, s)

/-- RegistryHandler.Float64Measure (src/unnamed/part_000 lines 74-94): same
shape as Int64Measure for the floating-point instrument. -/
def RegistryHandler.Float64Measure (r : RegistryHandler)
    (name description unit : String) (_tags : List String) :
    FatalOr (RegistryHandler × MeasureVal) :=
  if r.existsName name then
    .fatal "the provided metric name is already registered"
  else
    let s : MeasureVal := ⟨name, description, unit, false⟩
    .ok (r.put name s, s)

/-- The registry with no registrations (a fresh RegistryHandler with a nil
map). -/
def emptyRegistry : RegistryHandler := ⟨[]⟩

/-! ## Run startup sequencing (server.go lines 72-206) -/

/-- The startup steps Run performs, in program order. -/
inductive RunEvent where
  | createExporter
  | newGRPCServer
  | invokeOnRegister
  | rpcListen
  | rpcServeLoop
  | dialLoopback
  | buildGateway
  | httpListen
deriving DecidableEq, Repr

/-- How a Run call ends: a log.Fatal process exit, an error returned to the
caller, or reaching the serving state. -/
inductive RunOutcome where
  | fatalExit (msg : String)
  | errReturn (msg : String)
  | serving
deriving DecidableEq, Repr

/-- The environment and option facts Run's control flow branches on: whether
the stdout trace exporter and provider construct, whether Options.OnRegister
is non-nil and whether it errors, and whether the RPC listen, loopback dial
and gateway construction succeed. -/
structure RunConfig where
  exporterOk : Bool
  providerOk : Bool
  hasOnRegister : Bool
  onRegisterErr : Option String
  rpcListenOk : Bool
  dialOk : Bool
  gatewayErr : Option String
deriving Repr

/-- Run (server.go lines 72-206) as a trace of startup events plus its
outcome, following the source's early returns: exporter and provider fatals,
the nil OnRegister check before any listener is opened, the OnRegister error,
the RPC listen error, the loopback dial error, the gateway handler error, and
finally the HTTP listener. -/
def Run (c : RunConfig) : List RunEvent × RunOutcome :=
  if !c.exporterOk then
    ([.createExporter], .fatalExit "failed to create trace exporter")
  else if !c.providerOk then
    ([.createExporter], .fatalExit "failed to create trace provider")
  else
    if !c.hasOnRegister then
      ([.createExporter, .newGRPCServer],
       .errReturn "no register callback was defined, this is required for registering the RPC server")
    else
      match c.onRegisterErr with
      | some _ =>
          ([.createExporter, .newGRPCServer, .invokeOnRegister],
           .errReturn "failed to register RPC service")
      | none =>
          if !c.rpcListenOk then
            ([.createExporter, .newGRPCServer, .invokeOnRegister, .rpcListen],
             .errReturn "failed to open TCP connection")
          else if !c.dialOk then
            ([.createExporter, .newGRPCServer, .invokeOnRegister, .rpcListen,
              .rpcServeLoop, .dialLoopback],
             .errReturn "failed to create network connection")
          else
            match c.gatewayErr with
            | some m =>
                ([.createExporter, .newGRPCServer, .invokeOnRegister, .rpcListen,
                  .rpcServeLoop, .dialLoopback, .buildGateway],
                 .errReturn m)
            | none =>
                ([.createExporter, .newGRPCServer, .invokeOnRegister, .rpcListen,
                  .rpcServeLoop, .dialLoopback, .buildGateway, .httpListen],
                 .serving)

/-! ## Teardown ordering on cancellation (server.go lines 145-196)

Run installs two independent goroutines that both block on ctx.Done: one
closes the loopback client connection (lines 160-165), one gracefully shuts
down the HTTP server with context.Background() (lines 190-196). Go's scheduler
imposes no order between them, so the observable teardown traces are the root
cancellation followed by every interleaving of the two watcher actions. Run
contains no call that stops the gRPC serve loop (no Stop or GracefulStop), so
no trace contains a stop of that loop. -/

/-- One teardown action; the Bool on shutdownHTTP records whether the shutdown
context is context.Background() rather than the canceled one. -/
inductive TeardownEvent where
  | cancelRoot
  | closeConn
  | shutdownHTTP (backgroundCtx : Bool)
  | stopRPCServe
deriving DecidableEq, Repr

/-- The scheduler orders of two independent one-shot goroutine actions: either
may run first. -/
def scheduleOrders (a b : TeardownEvent) : List (List TeardownEvent) :=
  [[a, b], [b, a]]

/-- All observable teardown traces of Run once the top-level context is
canceled while all sub-servers are up: root cancel, then the two watcher
actions in every scheduler order. -/
def runTeardownTraces : List (List TeardownEvent) :=
  (scheduleOrders .closeConn (.shutdownHTTP true)).map
    fun p => TeardownEvent.cancelRoot :: p

/-- Does event a occur before event b in the trace (both occurring). -/
def eventBefore (a b : TeardownEvent) (t : List TeardownEvent) : Bool :=
  t.contains a && t.contains b && t.indexOf a < t.indexOf b

/-! ## Concrete inputs used by counterexamples and witnesses -/

/-- A one-message stream ending in clean EOF, default configuration. -/
def fwdCexInputC1 : ForwardInput Nat :=
  ⟨true, true, [], "application/json", fun _ => none, true, [], [7], none⟩

/-- A one-message stream terminated by a NOT_FOUND status error. -/
def fwdCexInputC2 : ForwardInput Nat :=
  ⟨true, true, [], "application/json", fun _ => none, true, [], [7],
   some (.withStatus ⟨codeNotFound, "not found", []⟩)⟩

/-- A zero-message stream ending in clean EOF. -/
def fwdCexInputC3 : ForwardInput Nat :=
  ⟨true, true, [], "application/json", fun _ => none, true, [], [], none⟩

/-- A call whose response writer does not support flushing. -/
def fwdInputNoFlusher : ForwardInput Nat :=
  ⟨false, true, [], "application/json", fun _ => none, true, [], [5], none⟩

/-- A RunConfig whose OnRegister callback is absent, everything else healthy. -/
def runCfgNoCallback : RunConfig := ⟨true, true, false, none, true, true, none⟩

/-! ## Helper lemmas about the forwarder loop -/

theorem forwardLoop_no_opts {Msg : Type} (mf : MarshalArg Msg → Option GoError)
    (msgs : List Msg) :
    forwardLoop mf [] msgs none = (some msgs, [], msgs.length + 1) := by
  induction msgs with
  | nil => rfl
  | cons m rest ih => simp [forwardLoop, handleForwardResponseOptions, ih]

theorem forwardLoop_no_opts_err {Msg : Type} (mf : MarshalArg Msg → Option GoError)
    (msgs : List Msg) (e : GoError) :
    forwardLoop mf [] msgs (some e) =
      (none, handleForwardResponseStreamError mf e, msgs.length + 1) := by
  induction msgs with
  | nil => rfl
  | cons m rest ih => simp [forwardLoop, handleForwardResponseOptions, ih]

/-! ## Claim C1 -/

/-- C1 (amended): for a stream yielding messages m1..mn and then clean
end-of-stream, in the default configuration (no forward-response options,
flush-capable writer, metadata present, marshal and write succeeding), the
forwarder performs exactly one body write — the marshal of the raw message
list in production order — followed by a flush; no error chunk is written and
no message is wrapped as a result chunk. -/
theorem c1_forward_clean_eof {Msg : Type} (md : List (String × String)) (ct : String)
    (mf : MarshalArg Msg → Option GoError) (msgs : List Msg)
    (hmf : mf (.msgList msgs) = none) :
    ForwardResponseStream ⟨true, true, md, ct, mf, true, [], msgs, none⟩ =
      ⟨headerEvents md ct ++ [.write (.msgList msgs), .flush], msgs.length + 1⟩ ∧
    ∀ e ∈ (ForwardResponseStream
        (⟨true, true, md, ct, mf, true, [], msgs, none⟩ : ForwardInput Msg)).events,
      isErrorChunkWrite e = false := by
  have hmain : ForwardResponseStream ⟨true, true, md, ct, mf, true, [], msgs, none⟩ =
      ({ events := headerEvents md ct ++ [.write (.msgList msgs), .flush],
         recvCount := msgs.length + 1 } : ForwardResult Msg) := by
    simp [ForwardResponseStream, handleForwardResponseOptions, forwardLoop_no_opts, hmf]
  refine ⟨hmain, ?_⟩
  rw [hmain]
  intro e he
  simp only [headerEvents, List.mem_append, List.mem_map, List.mem_cons,
    List.mem_singleton, List.not_mem_nil, or_false] at he
  rcases he with ⟨⟨kv, _, rfl⟩ | rfl⟩ | rfl | rfl <;> rfl

/-- C1 counterexample: for the stream producing the single message 7 and then
clean end-of-stream, the body write is the raw message list, and no event
writes a result-chunk wrapping of 7 — the claimed wrapped output
[StreamChunk with result 7] is not what is written. -/
theorem c1_counterexample :
    (ForwardResponseStream fwdCexInputC1).events =
      [.setHeader "Content-Type" "application/json", .write (.msgList [7]), .flush] ∧
    (ForwardResponseStream fwdCexInputC1).events.all
      (fun e => !containsResultChunk 7 e) = true ∧
    (ForwardResponseStream fwdCexInputC1).events ≠
      [.setHeader "Content-Type" "application/json",
       .write (.chunkList [.result 7]), .flush] := by
  refine ⟨rfl, rfl, ?_⟩
  decide

/-- C1 witness: the amended theorem evaluated on the concrete stream
[1, 2, 3]. -/
theorem c1_witness :
    ((fun _ => none : MarshalArg Nat → Option GoError) (.msgList [1, 2, 3]) = none) ∧
    ForwardResponseStream
        (⟨true, true, [], "application/json", fun _ => none, true, [], [1, 2, 3], none⟩ :
          ForwardInput Nat) =
      ⟨headerEvents [] "application/json" ++ [.write (.msgList [1, 2, 3]), .flush], 4⟩ :=
  ⟨rfl, (c1_forward_clean_eof [] "application/json" (fun _ => none) [1, 2, 3] rfl).1⟩

/-! ## Claim C2 -/

/-- C2 (amended): for a stream yielding m1..mk and then a terminal RPC error,
the forwarder writes exactly one chunk — the error chunk with the mapped codes
(for NOT_FOUND, grpc_code 5 and http_code 404) — preceded by the mapped HTTP
status header; the buffered messages m1..mk are discarded rather than written,
and nothing is written after the error chunk. -/
theorem c2_forward_error_discards_buffer {Msg : Type} (md : List (String × String))
    (ct : String) (mf : MarshalArg Msg → Option GoError) (msgs : List Msg) (e : GoError)
    (hmf : mf (.chunkMap (streamChunk none (some e))) = none) :
    ForwardResponseStream ⟨true, true, md, ct, mf, true, [], msgs, some e⟩ =
      ⟨headerEvents md ct ++
        [.writeHeader (HTTPStatusFromCode (errCode e)),
         .write (.chunkMap (.error (errorEnvelope e)))],
       msgs.length + 1⟩ := by
  have hmf2 : mf (.chunkMap (.error (errorEnvelope e))) = none := hmf
  simp [ForwardResponseStream, handleForwardResponseOptions, forwardLoop_no_opts_err,
    handleForwardResponseStreamError, hmf2, streamChunk]

/-- C2 counterexample: for the stream producing message 7 and then a NOT_FOUND
error, the output is the error chunk alone — no result chunk for 7 precedes
it, contradicting the claimed output of result chunks followed by the error
chunk. -/
theorem c2_counterexample :
    (ForwardResponseStream fwdCexInputC2).events =
      [.setHeader "Content-Type" "application/json",
       .writeHeader 404,
       .write (.chunkMap (.error ⟨5, 404, "not found", "Not Found", []⟩))] ∧
    (ForwardResponseStream fwdCexInputC2).events.all
      (fun e => !containsResultChunk 7 e) = true := by
  exact ⟨rfl, rfl⟩

/-- C2 witness: the amended theorem evaluated on the stream [9] terminated by a
NOT_FOUND status error, showing grpc_code 5 and http_code 404 in the single
error chunk. -/
theorem c2_witness :
    ((fun _ => none : MarshalArg Nat → Option GoError)
        (.chunkMap (streamChunk none (some (.withStatus ⟨5, "missing", []⟩)))) = none) ∧
    ForwardResponseStream
        (⟨true, true, [], "application/json", fun _ => none, true, [], [9],
          some (.withStatus ⟨5, "missing", []⟩)⟩ : ForwardInput Nat) =
      ⟨headerEvents [] "application/json" ++
        [.writeHeader 404, .write (.chunkMap (.error ⟨5, 404, "missing", "Not Found", []⟩))],
       2⟩ :=
  ⟨rfl, c2_forward_error_discards_buffer [] "application/json" (fun _ => none) [9]
    (.withStatus ⟨5, "missing", []⟩) rfl⟩

/-! ## Claim C3 -/

/-- C3 (amended): for a stream yielding zero messages and clean end-of-stream,
the forwarder writes the marshal of the empty message list and flushes — it
does not write an "empty response" error chunk. The "empty response" Unknown
envelope exists only in the helper streamChunk applied to no message and no
error, a branch ForwardResponseStream never reaches. -/
theorem c3_forward_empty_stream {Msg : Type} (md : List (String × String)) (ct : String)
    (mf : MarshalArg Msg → Option GoError)
    (hmf : mf (.msgList ([] : List Msg)) = none) :
    ForwardResponseStream (⟨true, true, md, ct, mf, true, [], [], none⟩ : ForwardInput Msg) =
      ⟨headerEvents md ct ++ [.write (.msgList []), .flush], 1⟩ ∧
    @streamChunk Msg none none =
      .error ⟨codeUnknown, 500, "empty response", "Internal Server Error", []⟩ := by
  constructor
  · simp [ForwardResponseStream, handleForwardResponseOptions, forwardLoop, hmf]
  · rfl

/-- C3 counterexample: on the zero-message stream with clean end-of-stream the
forwarder's output contains no error chunk at all — it is the marshal of the
empty list plus a flush — contradicting the claimed single
"empty response" error chunk. -/
theorem c3_counterexample :
    (ForwardResponseStream fwdCexInputC3).events =
      [.setHeader "Content-Type" "application/json", .write (.msgList []), .flush] ∧
    (ForwardResponseStream fwdCexInputC3).events.all
      (fun e => !isErrorChunkWrite e) = true := by
  exact ⟨rfl, rfl⟩

/-- C3 witness: the amended theorem evaluated with the identity-failing-free
marshaler on the empty stream. -/
theorem c3_witness :
    ((fun _ => none : MarshalArg Nat → Option GoError) (.msgList []) = none) ∧
    (ForwardResponseStream
        (⟨true, true, [], "application/json", fun _ => none, true, [], [], none⟩ :
          ForwardInput Nat) =
      ⟨headerEvents [] "application/json" ++ [.write (.msgList []), .flush], 1⟩ ∧
    @streamChunk Nat none none =
      .error ⟨codeUnknown, 500, "empty response", "Internal Server Error", []⟩) :=
  ⟨rfl, c3_forward_empty_stream [] "application/json" (fun _ => none) rfl⟩

/-! ## Claim C4 -/

/-- C4: the ErrorEnvelope produced for a terminal RPC error carries the RPC
status code (Unknown when the error has no status), the HTTP code obtained by
the total deterministic map HTTPStatusFromCode of that RPC code, the HTTP
status text for that HTTP code, and every structured detail attached to the
error; an error with no status maps through Unknown to HTTP 500, and the
forwarder also sets the response status from the same map. -/
theorem c4_error_envelope_mapping {Msg : Type}
    (mf : MarshalArg Msg → Option GoError) (e : GoError)
    (hmf : mf (.chunkMap (streamChunk none (some e))) = none) :
    errorEnvelope e =
      { grpcCode := errCode e
        httpCode := HTTPStatusFromCode (errCode e)
        message := errMessageOf e
        httpStatus := statusText (HTTPStatusFromCode (errCode e))
        details := errDetailsOf e } ∧
    handleForwardResponseStreamError mf e =
      [.writeHeader (HTTPStatusFromCode (errCode e)),
       .write (.chunkMap (.error (errorEnvelope e)))] ∧
    (∀ m : String, errCode (.plain m) = codeUnknown) ∧
    HTTPStatusFromCode codeUnknown = 500 := by
  refine ⟨?_, ?_, fun m => rfl, rfl⟩
  · cases e with
    | withStatus s =>
        simp [errorEnvelope, statusFromError, errCode, errMessageOf, errDetailsOf]
    | plain m => rfl
  · have hmf2 : mf (.chunkMap (.error (errorEnvelope e))) = none := hmf
    simp [handleForwardResponseStreamError, hmf2, streamChunk]

/-- C4 witness: the mapping theorem evaluated on a NOT_FOUND error carrying one
structured detail. -/
theorem c4_witness :
    ((fun _ => none : MarshalArg Nat → Option GoError)
        (.chunkMap (streamChunk none
          (some (.withStatus ⟨5, "gone", [⟨"type.example/T", [1, 2]⟩]⟩)))) = none) ∧
    (errorEnvelope (.withStatus ⟨5, "gone", [⟨"type.example/T", [1, 2]⟩]⟩) =
      { grpcCode := errCode (.withStatus ⟨5, "gone", [⟨"type.example/T", [1, 2]⟩]⟩)
        httpCode := HTTPStatusFromCode (errCode (.withStatus ⟨5, "gone", [⟨"type.example/T", [1, 2]⟩]⟩))
        message := errMessageOf (.withStatus ⟨5, "gone", [⟨"type.example/T", [1, 2]⟩]⟩)
        httpStatus := statusText (HTTPStatusFromCode (errCode (.withStatus ⟨5, "gone", [⟨"type.example/T", [1, 2]⟩]⟩)))
        details := errDetailsOf (.withStatus ⟨5, "gone", [⟨"type.example/T", [1, 2]⟩]⟩) } ∧
    handleForwardResponseStreamError (fun _ => none)
        (.withStatus ⟨5, "gone", [⟨"type.example/T", [1, 2]⟩]⟩) =
      ([.writeHeader (HTTPStatusFromCode (errCode (.withStatus ⟨5, "gone", [⟨"type.example/T", [1, 2]⟩]⟩))),
        .write (.chunkMap (.error (errorEnvelope (.withStatus ⟨5, "gone", [⟨"type.example/T", [1, 2]⟩]⟩))))] :
          List (HTTPEvent Nat)) ∧
    (∀ m : String, errCode (.plain m) = codeUnknown) ∧
    HTTPStatusFromCode codeUnknown = 500) :=
  ⟨rfl, c4_error_envelope_mapping (fun _ => none)
    (.withStatus ⟨5, "gone", [⟨"type.example/T", [1, 2]⟩]⟩) rfl⟩

/-! ## Claim C5 -/

/-- C5: a request is dispatched to the RPC server iff its protocol major
version is 2 and its Content-Type contains "application/grpc"; every other
request — malformed ones included — is dispatched to the REST handler. The
same decision governs grpcWrapper and the h2c allowCORS router. -/
theorem c5_route_decision (r : Request) :
    (grpcWrapper r = Route.rpc ↔ isGRPCRequest r = true) ∧
    (grpcWrapper r = Route.rest ↔ isGRPCRequest r = false) ∧
    (RouterEvent.delegateRPC ∈ allowCORS r ↔ isGRPCRequest r = true) ∧
    isGRPCRequest r =
      (r.protoMajor == 2 && containsSubstr r.contentType "application/grpc") := by
  refine ⟨?_, ?_, ?_, rfl⟩
  · cases hg : isGRPCRequest r <;> simp [grpcWrapper, hg]
  · cases hg : isGRPCRequest r <;> simp [grpcWrapper, hg]
  · cases hg : isGRPCRequest r with
    | true => simp [allowCORS, hg]
    | false =>
        simp only [allowCORS, hg, Bool.false_eq_true, if_false]
        constructor
        · intro hmem
          exfalso
          revert hmem
          split_ifs <;> simp [preflightHandler]
        · intro hfalse
          exact absurd hfalse (by simp)

/-! ## Claim C6 -/

/-- C6: for an OPTIONS request routed to REST that carries a non-empty Origin
and a non-empty Access-Control-Request-Method, the router echoes the Origin as
Access-Control-Allow-Origin, sets Access-Control-Allow-Headers to
Content-Type,Accept and Access-Control-Allow-Methods to
GET,HEAD,POST,PUT,DELETE, writes no body (the router has no body write), and
never delegates to the REST handler. -/
theorem c6_preflight (r : Request)
    (hg : isGRPCRequest r = false)
    (ho : (r.origin == "") = false)
    (hm : (r.method == "OPTIONS") = true)
    (ha : (r.acrm == "") = false) :
    allowCORS r =
      [.setHeader "Access-Control-Allow-Origin" r.origin,
       .setHeader "Access-Control-Allow-Headers" "Content-Type,Accept",
       .setHeader "Access-Control-Allow-Methods" "GET,HEAD,POST,PUT,DELETE"] ∧
    RouterEvent.delegateRest ∉ allowCORS r ∧
    RouterEvent.delegateRPC ∉ allowCORS r := by
  have hall : allowCORS r =
      [.setHeader "Access-Control-Allow-Origin" r.origin,
       .setHeader "Access-Control-Allow-Headers" "Content-Type,Accept",
       .setHeader "Access-Control-Allow-Methods" "GET,HEAD,POST,PUT,DELETE"] := by
    simp [allowCORS, hg, ho, hm, ha, preflightHandler]
    exact ⟨rfl, rfl⟩
  rw [hall]
  exact ⟨rfl, by simp, by simp⟩

/-- C6 witness: the preflight theorem evaluated on a concrete HTTP/1.1 OPTIONS
request with Origin and Access-Control-Request-Method set. -/
theorem c6_witness :
    isGRPCRequest ⟨1, "application/json", "http://ui.example", "POST", "OPTIONS"⟩ = false ∧
    ((⟨1, "application/json", "http://ui.example", "POST", "OPTIONS"⟩ : Request).origin == "") = false ∧
    ((⟨1, "application/json", "http://ui.example", "POST", "OPTIONS"⟩ : Request).method == "OPTIONS") = true ∧
    ((⟨1, "application/json", "http://ui.example", "POST", "OPTIONS"⟩ : Request).acrm == "") = false ∧
    allowCORS ⟨1, "application/json", "http://ui.example", "POST", "OPTIONS"⟩ =
      [.setHeader "Access-Control-Allow-Origin" "http://ui.example",
       .setHeader "Access-Control-Allow-Headers" "Content-Type,Accept",
       .setHeader "Access-Control-Allow-Methods" "GET,HEAD,POST,PUT,DELETE"] :=
  ⟨by decide, rfl, rfl, rfl,
    (c6_preflight ⟨1, "application/json", "http://ui.example", "POST", "OPTIONS"⟩
      (by decide) rfl rfl rfl).1⟩

/-! ## Claim C7 -/

/-- C7 (amended): when the top-level context is canceled while all sub-servers
are serving, the HTTP graceful shutdown (with a background context) and the
loopback-connection close each occur exactly once, but in either scheduler
order — no strict HTTP-first ordering is enforced — and no teardown trace
stops the RPC serve loop, which Run never stops. -/
theorem c7_teardown_unordered (t : List TeardownEvent)
    (ht : t ∈ runTeardownTraces) :
    t.head? = some TeardownEvent.cancelRoot ∧
    t.count TeardownEvent.closeConn = 1 ∧
    t.count (TeardownEvent.shutdownHTTP true) = 1 ∧
    TeardownEvent.stopRPCServe ∉ t ∧
    TeardownEvent.shutdownHTTP false ∉ t ∧
    [TeardownEvent.cancelRoot, .closeConn, .shutdownHTTP true] ∈ runTeardownTraces ∧
    [TeardownEvent.cancelRoot, .shutdownHTTP true, .closeConn] ∈ runTeardownTraces := by
  have hset : runTeardownTraces =
      [[TeardownEvent.cancelRoot, .closeConn, .shutdownHTTP true],
       [TeardownEvent.cancelRoot, .shutdownHTTP true, .closeConn]] := by decide
  rw [hset] at ht
  simp only [List.mem_cons, List.not_mem_nil, or_false] at ht
  rcases ht with rfl | rfl <;> refine ⟨rfl, rfl, rfl, by decide, by decide, by decide, by decide⟩

/-- C7 counterexample: the teardown trace in which the loopback close precedes
the HTTP shutdown is a valid trace of Run, the HTTP shutdown is not before the
close in it, and it contains no stop of the RPC serve loop — contradicting the
claimed strict HTTP-then-loopback-then-RPC order. -/
theorem c7_counterexample :
    [TeardownEvent.cancelRoot, .closeConn, .shutdownHTTP true] ∈ runTeardownTraces ∧
    eventBefore (.shutdownHTTP true) .closeConn
      [TeardownEvent.cancelRoot, .closeConn, .shutdownHTTP true] = false ∧
    TeardownEvent.stopRPCServe ∉
      [TeardownEvent.cancelRoot, .closeConn, .shutdownHTTP true] := by
  decide

/-- C7 witness: the amended theorem evaluated on the trace that shuts the HTTP
server down first. -/
theorem c7_witness :
    [TeardownEvent.cancelRoot, .shutdownHTTP true, .closeConn] ∈ runTeardownTraces ∧
    ([TeardownEvent.cancelRoot, .shutdownHTTP true, .closeConn].head? =
        some TeardownEvent.cancelRoot ∧
      [TeardownEvent.cancelRoot, .shutdownHTTP true, .closeConn].count
        TeardownEvent.closeConn = 1 ∧
      [TeardownEvent.cancelRoot, .shutdownHTTP true, .closeConn].count
        (TeardownEvent.shutdownHTTP true) = 1 ∧
      TeardownEvent.stopRPCServe ∉
        [TeardownEvent.cancelRoot, .shutdownHTTP true, .closeConn] ∧
      TeardownEvent.shutdownHTTP false ∉
        [TeardownEvent.cancelRoot, .shutdownHTTP true, .closeConn] ∧
      [TeardownEvent.cancelRoot, .closeConn, .shutdownHTTP true] ∈ runTeardownTraces ∧
      [TeardownEvent.cancelRoot, .shutdownHTTP true, .closeConn] ∈ runTeardownTraces) :=
  ⟨by decide, c7_teardown_unordered
    [TeardownEvent.cancelRoot, .shutdownHTTP true, .closeConn] (by decide)⟩

/-! ## Claim C8 -/

/-- C8: registering an already-registered metric name through the counter or
gauge registration call terminates fatally (returning no successor registry
state, so nothing is overwritten), and after two registrations with distinct
names the registry's listing holds exactly those two entries. -/
theorem c8_registry_duplicate_fatal (n1 n2 d u : String) (tags : List String)
    (hne : n1 ≠ n2) :
    (∀ r : RegistryHandler, r.existsName n1 = true →
      r.Int64Measure n1 d u tags =
          .fatal "the provided metric name is already registered" ∧
      r.Float64Measure n1 d u tags =
          .fatal "the provided metric name is already registered") ∧
    ∃ r1 m1 r2 m2,
      emptyRegistry.Int64Measure n1 d u tags = .ok (r1, m1) ∧
      r1.Int64Measure n2 d u tags = .ok (r2, m2) ∧
      r2.metrics.map Prod.fst = [n1, n2] ∧
      r2.Int64Measure n1 d u tags =
        .fatal "the provided metric name is already registered" := by
  have hb : (n1 == n2) = false := beq_eq_false_iff_ne.mpr hne
  constructor
  · intro r hr
    constructor
    · simp [RegistryHandler.Int64Measure, hr]
    · simp [RegistryHandler.Float64Measure, hr]
  · refine ⟨⟨[(n1, ⟨n1, d, u, true⟩)]⟩, ⟨n1, d, u, true⟩,
      ⟨[(n1, ⟨n1, d, u, true⟩), (n2, ⟨n2, d, u, true⟩)]⟩, ⟨n2, d, u, true⟩, ?_, ?_, ?_, ?_⟩
    · simp [RegistryHandler.Int64Measure, RegistryHandler.existsName,
        RegistryHandler.put, emptyRegistry]
    · simp [RegistryHandler.Int64Measure, RegistryHandler.existsName,
        RegistryHandler.put, hb]
    · simp
    · simp [RegistryHandler.Int64Measure, RegistryHandler.existsName]

/-- C8 witness: the registry theorem evaluated on the distinct names
request_count and request_latency. -/
theorem c8_witness :
    ("request_count" : String) ≠ "request_latency" ∧
    ((∀ r : RegistryHandler, r.existsName "request_count" = true →
      r.Int64Measure "request_count" "d" "1" [] =
          .fatal "the provided metric name is already registered" ∧
      r.Float64Measure "request_count" "d" "1" [] =
          .fatal "the provided metric name is already registered") ∧
    ∃ r1 m1 r2 m2,
      emptyRegistry.Int64Measure "request_count" "d" "1" [] = .ok (r1, m1) ∧
      r1.Int64Measure "request_latency" "d" "1" [] = .ok (r2, m2) ∧
      r2.metrics.map Prod.fst = ["request_count", "request_latency"] ∧
      r2.Int64Measure "request_count" "d" "1" [] =
        .fatal "the provided metric name is already registered") :=
  ⟨by decide, c8_registry_duplicate_fatal "request_count" "request_latency" "d" "1" []
    (by decide)⟩

/-! ## Claim C9 -/

/-- C9: when Options.OnRegister is absent, Run returns the missing-callback
configuration error to its caller during startup, with no RPC listen, no HTTP
listen and no loopback dial ever attempted (the trace contains none of them,
so nothing is retried). -/
theorem c9_missing_onregister (c : RunConfig)
    (hx : c.exporterOk = true) (hp : c.providerOk = true)
    (hr : c.hasOnRegister = false) :
    (Run c).2 = .errReturn
      "no register callback was defined, this is required for registering the RPC server" ∧
    RunEvent.rpcListen ∉ (Run c).1 ∧
    RunEvent.httpListen ∉ (Run c).1 ∧
    RunEvent.dialLoopback ∉ (Run c).1 := by
  simp [Run, hx, hp, hr]

/-- C9 witness: the missing-callback theorem evaluated on a config whose only
defect is the absent OnRegister callback. -/
theorem c9_witness :
    runCfgNoCallback.exporterOk = true ∧
    runCfgNoCallback.providerOk = true ∧
    runCfgNoCallback.hasOnRegister = false ∧
    ((Run runCfgNoCallback).2 = .errReturn
        "no register callback was defined, this is required for registering the RPC server" ∧
      RunEvent.rpcListen ∉ (Run runCfgNoCallback).1 ∧
      RunEvent.httpListen ∉ (Run runCfgNoCallback).1 ∧
      RunEvent.dialLoopback ∉ (Run runCfgNoCallback).1) :=
  ⟨rfl, rfl, rfl, c9_missing_onregister runCfgNoCallback rfl rfl rfl⟩

/-! ## Claim C10 -/

/-- C10: when the response writer does not support flushing, or no server
metadata is in the context, ForwardResponseStream responds with a 500
http.Error and returns without ever invoking recv. -/
theorem c10_precondition_failures {Msg : Type} (inp : ForwardInput Msg)
    (h : inp.flusherOk = false ∨ inp.mdOk = false) :
    (ForwardResponseStream inp).recvCount = 0 ∧
    (ForwardResponseStream inp).events =
      [.httpError
        (if inp.flusherOk then "unexpected error" else "unexpected type of web server")
        500] := by
  by_cases hf : inp.flusherOk
  · have hmd : inp.mdOk = false := by
      rcases h with h | h
      · exact absurd h (by simp [hf])
      · exact h
    simp [ForwardResponseStream, hf, hmd]
  · simp [ForwardResponseStream, hf]

/-- C10 witness: the precondition theorem evaluated on a call whose writer has
no flush support; recv is never called even though the stream holds a
message. -/
theorem c10_witness :
    (fwdInputNoFlusher.flusherOk = false ∨ fwdInputNoFlusher.mdOk = false) ∧
    (ForwardResponseStream fwdInputNoFlusher).recvCount = 0 ∧
    (ForwardResponseStream fwdInputNoFlusher).events =
      [.httpError "unexpected type of web server" 500] := by
  have h := c10_precondition_failures fwdInputNoFlusher (Or.inl rfl)
  exact ⟨Or.inl rfl, h.1, h.2⟩

end Drudge
